import Mathlib

/-!
Shallow embedding of the libusbcc wrapper library (src/libusbcc/libusbcc.cc,
src/libusbcc/libusbcc.h) and verification of its specification claims.

The embedding models the libusb transport as explicit parameters (status
codes, reported parent handles, fetched descriptor records) and models the
C++ objects as explicit state values.  Exceptions are modelled with Except,
and native resource effects (ref/unref, open/close, list acquire/release)
as explicit event traces.
-/

namespace Libusbcc

/-! ## Error translation (libusbcc.cc, is_error, lines 428-454)

The libusb status codes referenced by the switch, with their values fixed
by the libusb API: LIBUSB_SUCCESS = 0, LIBUSB_ERROR_IO = -1,
LIBUSB_ERROR_INVALID_PARAM = -2, LIBUSB_ERROR_ACCESS = -3,
LIBUSB_ERROR_NO_DEVICE = -4, LIBUSB_ERROR_NOT_FOUND = -5,
LIBUSB_ERROR_BUSY = -6, LIBUSB_ERROR_TIMEOUT = -7,
LIBUSB_ERROR_OVERFLOW = -8, LIBUSB_ERROR_PIPE = -9,
LIBUSB_ERROR_INTERRUPTED = -10, LIBUSB_ERROR_NO_MEM = -11,
LIBUSB_ERROR_NOT_SUPPORTED = -12, LIBUSB_ERROR_OTHER = -99. -/

/-- Embedding of `bool is_error (int status)`: a switch that returns false
for LIBUSB_SUCCESS (0), true for the thirteen enumerated error codes, and
false for everything else (the default branch). -/
def is_error (status : Int) : Bool :=
  if status = 0 then false          -- case LIBUSB_SUCCESS
  else if status = -1 ∨ status = -2 ∨ status = -3 ∨ status = -4 ∨
          status = -5 ∨ status = -6 ∨ status = -7 ∨ status = -8 ∨
          status = -9 ∨ status = -10 ∨ status = -11 ∨ status = -12 ∨
          status = -99 then true    -- the thirteen LIBUSB_ERROR_* cases
  else false                        -- default

/-- The fixed enumerated set of status codes recognized as errors by the
switch in `is_error`. -/
def recognizedErrorCodes : List Int :=
  [-1, -2, -3, -4, -5, -6, -7, -8, -9, -10, -11, -12, -99]

end Libusbcc

namespace Libusbcc

/-! ## Version string formatting (libusbcc.cc, lines 275-304) -/

/-- Embedding of `DeviceDescriptor::usb_version_str`: a switch on the
bcdUSB value cast to the USBVersion enum (V_1_1 = 0x0110, V_2_0 = 0x0200,
V_3_0 = 0x0300), defaulting to "unknown". -/
def usb_version_str (bcdUSB : Nat) : String :=
  if bcdUSB = 0x0110 then "1.1"
  else if bcdUSB = 0x0200 then "2.0"
  else if bcdUSB = 0x0300 then "3.0"
  else "unknown"

/-- Embedding of `DeviceDescriptor::release_version_str`: formats the
16-bit bcdDevice value as to_string((v >> 8) & 0xff) + '.' +
to_string(v & 0xff). -/
def release_version_str (v : Nat) : String :=
  toString ((v >>> 8) &&& 0xff) ++ "." ++ toString (v &&& 0xff)

end Libusbcc

namespace Libusbcc

/-! ## Handles, native-call events and the failure taxonomy -/

/-- Opaque libusb_device pointer, modelled as a natural number id. -/
abbrev DeviceHandle := Nat

/-- Opaque libusb_device_handle pointer (an open session), modelled as a
natural number id. -/
abbrev SessionHandle := Nat

/-- Native libusb calls with resource effects, recorded as an explicit
event trace by the embedded operations. -/
inductive Event where
  | refDevice (d : Option DeviceHandle)       -- libusb_ref_device
  | unrefDevice (d : DeviceHandle)            -- libusb_unref_device
  | closeHandle (h : SessionHandle)           -- libusb_close
  | getDeviceList                             -- libusb_get_device_list
  | freeDeviceList                            -- libusb_free_device_list
  | getParent                                 -- libusb_get_parent
  | getStringDescriptorAscii (stringId : Int) (bufferSize : Nat)
  deriving DecidableEq, Repr

/-- The exception taxonomy of the wrapper: StatusException carrying the
libusb code, UnavailableException, and a nested exception produced by
std::throw_with_nested with a context message. -/
inductive Failure where
  | statusError (code : Int)
  | unavailable
  | wrapped (context : String) (cause : Failure)
  deriving DecidableEq, Repr

/-- The libusb_device_descriptor record fields used by the wrapper.  The
default values are the value-initialized (all-zero) record produced by
libusb_device_descriptor(). -/
structure DeviceDescriptorRecord where
  bcdUSB : Nat := 0
  bcdDevice : Nat := 0
  idVendor : Nat := 0
  idProduct : Nat := 0
  bDeviceClass : Nat := 0
  bDeviceSubClass : Nat := 0
  bDeviceProtocol : Nat := 0
  bNumConfigurations : Nat := 0
  bMaxPacketSize0 : Nat := 0
  iManufacturer : Nat := 0
  iProduct : Nat := 0
  iSerialNumber : Nat := 0
  deriving DecidableEq, Repr

/-- The value-initialized record emplaced by _descriptor.emplace
(libusb_device_descriptor()). -/
def defaultRecord : DeviceDescriptorRecord := {}

/-! ## DeviceDescriptor (libusbcc.cc, lines 180-384)

State of a DeviceDescriptor object: the (possibly null) libusb_device
pointer and the mutable Optional cache of the fetched descriptor record. -/

structure DeviceDescriptor where
  _device : Option DeviceHandle
  _descriptor : Option DeviceDescriptorRecord
  deriving DecidableEq, Repr

/-- Embedding of DeviceDescriptor::cleanup: if (_device)
libusb_unref_device (_device). Returns the emitted native calls. -/
def DeviceDescriptor.cleanupEvents (s : DeviceDescriptor) : List Event :=
  match s._device with
  | some d => [Event.unrefDevice d]
  | none => []

/-- Embedding of the copy constructor DeviceDescriptor (DeviceDescriptor
const& other): initializes _device from other._device and calls
libusb_ref_device; the _descriptor member is default-initialized to the
empty optional.  Returns the new object and the emitted native calls. -/
def DeviceDescriptor.copyCtor (other : DeviceDescriptor) :
    DeviceDescriptor × List Event :=
  (⟨other._device, none⟩, [Event.refDevice other._device])

/-- Embedding of operator= (DeviceDescriptor const& other): cleanup();
_device = other._device; libusb_ref_device (_device).  The _descriptor
cache member of the assigned-to object is not touched by the source.
Returns the updated object and the emitted native calls. -/
def DeviceDescriptor.copyAssign (self other : DeviceDescriptor) :
    DeviceDescriptor × List Event :=
  (⟨other._device, self._descriptor⟩,
   self.cleanupEvents ++ [Event.refDevice other._device])

/-- Outcome of one native libusb_get_device_descriptor call: the returned
status and the record the call writes through the out-pointer on
success. -/
structure DescriptorFetch where
  err : Int
  record : DeviceDescriptorRecord
  deriving DecidableEq, Repr

/-- Embedding of DeviceDescriptor::descriptor(): if the cache is engaged,
return it; otherwise emplace a value-initialized record, fetch into it
with libusb_get_device_descriptor, and throw StatusException on a
recognized error.  On the error path the emplaced default record stays in
the cache (the source does not reset the optional before throwing).
Returns (result, updated object, number of native fetches performed). -/
def DeviceDescriptor.descriptor (s : DeviceDescriptor) (fetch : DescriptorFetch) :
    Except Failure DeviceDescriptorRecord × DeviceDescriptor × Nat :=
  match s._descriptor with
  | some rec => (Except.ok rec, s, 0)
  | none =>
      if is_error fetch.err then
        (Except.error (Failure.statusError fetch.err),
         { s with _descriptor := some defaultRecord }, 1)
      else
        (Except.ok fetch.record, { s with _descriptor := some fetch.record }, 1)

/-- Embedding of DeviceDescriptor::parent (Bus const&): constructs a
low_level::DeviceList (whose constructor calls libusb_get_device_list and
throws StatusException on a recognized error, in which case its destructor
never runs), calls libusb_get_parent while the list is alive, and either
returns DeviceDescriptor (parent_device) (which refs the handle) or throws
UnavailableException; on both of those paths the DeviceList destructor
frees the list.  Parameters listStatus and parentHandle are the results
the transport reports for the two calls. -/
def DeviceDescriptor.parent (listStatus : Int) (parentHandle : Option DeviceHandle) :
    Except Failure DeviceDescriptor × List Event :=
  if is_error listStatus then
    (Except.error (Failure.statusError listStatus), [Event.getDeviceList])
  else
    match parentHandle with
    | some p =>
        (Except.ok ⟨some p, none⟩,
         [Event.getDeviceList, Event.getParent, Event.refDevice (some p),
          Event.freeDeviceList])
    | none =>
        (Except.error Failure.unavailable,
         [Event.getDeviceList, Event.getParent, Event.freeDeviceList])

end Libusbcc

namespace Libusbcc

/-! ## Device (libusbcc.cc, lines 61-177)

State of a Device object: the shared_ptr to the related DeviceDescriptor
(modelled as an optional id, since holding or dropping it has no native
resource effect) and the (possibly null) libusb_device_handle. -/

structure Device where
  _descriptor : Option Nat
  _handle : Option SessionHandle
  deriving DecidableEq, Repr

/-- Embedding of Device::reset: _handle = nullptr. -/
def Device.reset (d : Device) : Device :=
  { d with _handle := none }

/-- Embedding of Device::cleanup: if (_handle) libusb_close (_handle).
Returns the emitted native calls; this is also what the destructor does. -/
def Device.cleanupEvents (d : Device) : List Event :=
  match d._handle with
  | some h => [Event.closeHandle h]
  | none => []

/-- Embedding of the move constructor Device (Device&& other): copies
_descriptor and _handle from other, then other.reset().  Returns (new
object, moved-from other, emitted native calls). -/
def Device.moveCtor (other : Device) : Device × Device × List Event :=
  (⟨other._descriptor, other._handle⟩, other.reset, [])

/-- Embedding of operator= (Device&& other): cleanup(); then copies
_descriptor and _handle from other; then other.reset().  Returns (updated
self, moved-from other, emitted native calls). -/
def Device.moveAssign (self other : Device) : Device × Device × List Event :=
  (⟨other._descriptor, other._handle⟩, other.reset, self.cleanupEvents)

/-- A sequence of moves of one Device: at each step the current holder is
either move-constructed into a fresh object (flag true) or move-assigned
into an empty (fresh or moved-from) object (flag false).  Returns the
moved-from shells left behind, the final holder, and all native calls
emitted during the moves. -/
def Device.moveChain (d : Device) : List Bool → List Device × Device × List Event
  | [] => ([], d, [])
  | b :: rest =>
      let step := if b then Device.moveCtor d else Device.moveAssign ⟨none, none⟩ d
      let next := Device.moveChain step.1 rest
      (step.2.1 :: next.1, next.2.1, step.2.2 ++ next.2.2)

end Libusbcc

namespace Libusbcc

/-! ## Control transfers and string descriptors (libusbcc.cc, lines 120-177) -/

/-- ControlTransfer value object: request code, value, index. -/
structure ControlTransfer where
  request : Nat
  value : Nat
  index : Nat
  deriving DecidableEq, Repr

/-- Embedding of Device::send: issues the outbound control transfer over
the caller's buffer and throws StatusException when the returned int is a
recognized error; otherwise returns void, whatever non-negative count was
transferred.  bytes_transferred is the int the transport returns. -/
def Device.send (buffer : List Nat) (bytes_transferred : Int) :
    Except Failure Unit :=
  if is_error bytes_transferred then
    Except.error (Failure.statusError bytes_transferred)
  else
    Except.ok ()

/-- The staging vector allocated by Device::receive: std::vector<uint8_t>
buffer (64, 0). -/
def receiveBufferSize : Nat := 64

/-- Outcome of one native inbound libusb_control_transfer call: the
returned int (transferred count or error code) and the bytes the transport
deposits at the start of the staging buffer. -/
structure TransferResult where
  status : Int
  written : List Nat
  deriving DecidableEq, Repr

/-- Semantics of std::vector::resize (n): truncate to n elements, or
extend with zero-initialized elements up to n. -/
def vectorResize (l : List Nat) (n : Nat) : List Nat :=
  if n ≤ l.length then l.take n else l ++ List.replicate (n - l.length) 0

/-- Embedding of Device::receive: allocates the 64-byte zeroed staging
vector, lets the transport write into its front, throws StatusException on
a recognized error, and otherwise resizes the vector to the transferred
count and returns it. -/
def Device.receive (tr : TransferResult) : Except Failure (List Nat) :=
  let buffer := List.replicate receiveBufferSize 0
  let staged := tr.written.take receiveBufferSize ++
    buffer.drop (min tr.written.length receiveBufferSize)
  if is_error tr.status then
    Except.error (Failure.statusError tr.status)
  else
    Except.ok (vectorResize staged tr.status.toNat)

/-- The staging array allocated by Device::get_usb_string: char
buffer[256]. -/
def stringBufferSize : Nat := 256

/-- Outcome of one native libusb_get_string_descriptor_ascii call: the
returned int and the characters the call deposits at the start of the
buffer. -/
structure StringFetchResult where
  chars : Int
  content : List Char
  deriving DecidableEq, Repr

/-- Embedding of Device::get_usb_string: for a positive string id, fetch
through the 256-byte buffer, throw StatusException when the returned count
is negative, null-terminate at the count and build the string; for id 0
or negative, return the empty string with no native call.  Returns the
result and the emitted native calls. -/
def Device.get_usb_string (string_id : Int) (fetch : StringFetchResult) :
    Except Failure String × List Event :=
  if string_id > 0 then
    if fetch.chars < 0 then
      (Except.error (Failure.statusError fetch.chars),
       [Event.getStringDescriptorAscii string_id stringBufferSize])
    else
      (Except.ok (String.mk (fetch.content.take fetch.chars.toNat)),
       [Event.getStringDescriptorAscii string_id stringBufferSize])
  else
    (Except.ok "", [])

/-- Embedding of Device::manufacturer: get_usb_string on the resolved
iManufacturer index of the descriptor record. -/
def Device.manufacturer (rec : DeviceDescriptorRecord) (fetch : StringFetchResult) :
    Except Failure String × List Event :=
  Device.get_usb_string rec.iManufacturer fetch

/-- Embedding of Device::product: get_usb_string on the resolved iProduct
index of the descriptor record. -/
def Device.product (rec : DeviceDescriptorRecord) (fetch : StringFetchResult) :
    Except Failure String × List Event :=
  Device.get_usb_string rec.iProduct fetch

/-- Embedding of Device::serial_number: get_usb_string on the resolved
iSerialNumber index of the descriptor record. -/
def Device.serial_number (rec : DeviceDescriptorRecord) (fetch : StringFetchResult) :
    Except Failure String × List Event :=
  Device.get_usb_string rec.iSerialNumber fetch

/-! ## Bus (libusbcc.cc, lines 387-425) -/

/-- Embedding of the Bus constructor: libusb_init inside a try block whose
catch rethrows through std::throw_with_nested (Exception ("failed to
create libusb session")), so a recognized init error surfaces as the
nested pair.  initStatus is the int libusb_init returns. -/
def Bus.init (initStatus : Int) : Except Failure Unit :=
  if is_error initStatus then
    Except.error (Failure.wrapped "failed to create libusb session"
      (Failure.statusError initStatus))
  else
    Except.ok ()

/-- Embedding of Bus::device_descriptors: constructs a
low_level::DeviceList (throws StatusException on a recognized negative
size) and emplaces a DeviceDescriptor for every listed handle (each
construction refs its handle); any exception is rethrown through
std::throw_with_nested (Exception ("failed to get device list")).
Returns the result and the emitted native calls. -/
def Bus.device_descriptors (listStatus : Int) (handles : List DeviceHandle) :
    Except Failure (List DeviceDescriptor) × List Event :=
  if is_error listStatus then
    (Except.error (Failure.wrapped "failed to get device list"
      (Failure.statusError listStatus)),
     [Event.getDeviceList])
  else
    (Except.ok (handles.map fun d => ⟨some d, none⟩),
     Event.getDeviceList :: handles.map (fun d => Event.refDevice (some d)) ++
       [Event.freeDeviceList])

end Libusbcc

namespace Libusbcc

/-- C1: is_error reports Failure (true) exactly for the fixed enumerated
set of recognized negative libusb status codes, and Success (false) for 0
and every value outside that set, including unrecognized negative ones. -/
theorem is_error_iff_recognized :
    ∀ status : Int, is_error status = true ↔ status ∈ recognizedErrorCodes := by
  intro status
  simp only [is_error, recognizedErrorCodes, List.mem_cons, List.not_mem_nil, or_false]
  split_ifs with h0 herr
  · simp only [Bool.false_eq_true, false_iff]
    subst h0
    intro hc
    rcases hc with hc | hc | hc | hc | hc | hc | hc | hc | hc | hc | hc | hc | hc <;> omega
  · simp only [true_iff]
    tauto
  · simp only [Bool.false_eq_true, false_iff]
    tauto

/-- C9: for every 16-bit USB version value, usb_version_str returns a named
constant exactly for 0x0110 ("1.1"), 0x0200 ("2.0"), 0x0300 ("3.0") and
"unknown" for every other value; and for every 16-bit release version value
v, release_version_str returns "<major>.<minor>" where major is the high
byte and minor the low byte of v. -/
theorem version_str_spec (v : Nat) (hv : v < 65536) :
    (usb_version_str v = "1.1" ↔ v = 0x0110) ∧
    (usb_version_str v = "2.0" ↔ v = 0x0200) ∧
    (usb_version_str v = "3.0" ↔ v = 0x0300) ∧
    (v ≠ 0x0110 → v ≠ 0x0200 → v ≠ 0x0300 → usb_version_str v = "unknown") ∧
    release_version_str v = toString (v / 256) ++ "." ++ toString (v % 256) := by
  have hhigh : (v >>> 8) &&& 0xff = v / 256 := by
    have h1 : (v >>> 8) &&& 0xff = (v >>> 8) % 256 := by
      have := Nat.and_pow_two_sub_one_eq_mod (v >>> 8) 8
      simpa using this
    have h2 : v >>> 8 = v / 256 := Nat.shiftRight_eq_div_pow v 8
    have h3 : v / 256 < 256 := by omega
    rw [h1, h2, Nat.mod_eq_of_lt h3]
  have hlow : v &&& 0xff = v % 256 := by
    have := Nat.and_pow_two_sub_one_eq_mod v 8
    simpa using this
  refine ⟨?_, ?_, ?_, ?_, ?_⟩
  case _ =>
    unfold usb_version_str
    split_ifs with h1 h2 h3 <;> simp_all
  case _ =>
    unfold usb_version_str
    split_ifs with h1 h2 h3 <;> simp_all
  case _ =>
    unfold usb_version_str
    split_ifs with h1 h2 h3 <;> simp_all
  case _ =>
    intro h1 h2 h3
    unfold usb_version_str
    split_ifs <;> simp_all
  case _ =>
    unfold release_version_str
    rw [hhigh, hlow]

/-- Witness for version_str_spec at the concrete 16-bit value 0x0203. -/
theorem version_str_spec_witness :
    (usb_version_str 0x0203 = "1.1" ↔ (0x0203 : Nat) = 0x0110) ∧
    (usb_version_str 0x0203 = "2.0" ↔ (0x0203 : Nat) = 0x0200) ∧
    (usb_version_str 0x0203 = "3.0" ↔ (0x0203 : Nat) = 0x0300) ∧
    ((0x0203 : Nat) ≠ 0x0110 → (0x0203 : Nat) ≠ 0x0200 → (0x0203 : Nat) ≠ 0x0300 →
      usb_version_str 0x0203 = "unknown") ∧
    release_version_str 0x0203 = toString ((0x0203 : Nat) / 256) ++ "." ++
      toString ((0x0203 : Nat) % 256) :=
  version_str_spec 0x0203 (by decide)

end Libusbcc

namespace Libusbcc

/-! ## Helper lemmas -/

/-- A non-negative status is never classified as an error. -/
lemma is_error_of_nonneg (s : Int) (hs : 0 ≤ s) : is_error s = false := by
  unfold is_error
  split_ifs with h0 herr
  · rfl
  · exfalso
    rcases herr with h | h | h | h | h | h | h | h | h | h | h | h | h <;> omega
  · rfl

/-- Resizing a vector always yields exactly the requested length. -/
lemma vectorResize_length (l : List Nat) (n : Nat) :
    (vectorResize l n).length = n := by
  unfold vectorResize
  split_ifs with h
  · simp [List.length_take]
    omega
  · simp
    omega

/-- The staging buffer of Device.receive has exactly 64 elements after the
transport writes into its front. -/
lemma receive_staged_length (tr : TransferResult) :
    (tr.written.take receiveBufferSize ++
      (List.replicate receiveBufferSize 0).drop
        (min tr.written.length receiveBufferSize)).length = 64 := by
  simp [receiveBufferSize, List.length_take, List.length_drop]
  omega

end Libusbcc

namespace Libusbcc

/-- C4: for every Device holding a live session handle, in any sequence of
moves (move construction, or move assignment into an empty target)
followed by destruction of all involved objects, the handle is closed
exactly once: the moves themselves emit no close, destruction of every
moved-from shell emits no close, and destruction of the final holder emits
exactly one close of the handle. -/
theorem device_moves_close_once (dsc : Option Nat) (h : SessionHandle)
    (flags : List Bool) :
    (Device.moveChain ⟨dsc, some h⟩ flags).2.2 = [] ∧
    (∀ s ∈ (Device.moveChain ⟨dsc, some h⟩ flags).1, s.cleanupEvents = []) ∧
    (Device.moveChain ⟨dsc, some h⟩ flags).2.1.cleanupEvents =
      [Event.closeHandle h] := by
  induction flags with
  | nil =>
      refine ⟨rfl, ?_, rfl⟩
      intro s hs
      simp [Device.moveChain] at hs
  | cons b rest ih =>
      obtain ⟨ih1, ih2, ih3⟩ := ih
      cases b <;>
        refine ⟨by simpa [Device.moveChain, Device.moveCtor, Device.moveAssign,
            Device.cleanupEvents, Device.reset] using ih1, ?_,
          by simpa [Device.moveChain, Device.moveCtor, Device.moveAssign,
            Device.reset] using ih3⟩ <;>
      · intro s hs
        simp only [Device.moveChain, Device.moveCtor, Device.moveAssign,
          Device.reset, List.mem_cons] at hs
        rcases hs with rfl | hs
        · simp [Device.cleanupEvents]
        · exact ih2 s hs

/-- C5: receive stages inbound data in a buffer of exactly 64 bytes; a
recognized negative transfer result is a Failure; and on success the
returned byte vector has length exactly the transport-reported transferred
count, never more than 64. -/
theorem receive_spec (tr : TransferResult) :
    receiveBufferSize = 64 ∧
    (is_error tr.status = true →
      Device.receive tr = Except.error (Failure.statusError tr.status)) ∧
    (0 ≤ tr.status → tr.status ≤ 64 →
      ∃ bytes, Device.receive tr = Except.ok bytes ∧
        bytes.length = tr.status.toNat ∧ bytes.length ≤ 64) := by
  refine ⟨rfl, ?_, ?_⟩
  · intro herr
    simp [Device.receive, herr]
  · intro h0 h64
    have hne : is_error tr.status = false := is_error_of_nonneg tr.status h0
    simp only [Device.receive, hne, Bool.false_eq_true, if_false]
    exact ⟨_, rfl, vectorResize_length _ _, by rw [vectorResize_length]; omega⟩

/-- Witness for receive_spec: a transport double reporting 3 bytes
transferred into the 64-byte stage yields a 3-byte result. -/
theorem receive_spec_witness :
    ∃ bytes, Device.receive ⟨3, [10, 20, 30]⟩ = Except.ok bytes ∧
      bytes.length = (3 : Int).toNat ∧ bytes.length ≤ 64 :=
  (receive_spec ⟨3, [10, 20, 30]⟩).2.2 (by decide) (by decide)

end Libusbcc

namespace Libusbcc

/-- C10: send reports Success for every non-negative transferred count —
its result does not depend on the supplied buffer at all, so a short write
is indistinguishable from a full write — and it raises a Failure exactly
for a recognized negative transfer result. -/
theorem send_spec (buffer : List Nat) (bytes_transferred : Int) :
    (0 ≤ bytes_transferred →
      Device.send buffer bytes_transferred = Except.ok ()) ∧
    (∀ other : List Nat,
      Device.send buffer bytes_transferred = Device.send other bytes_transferred) ∧
    (∀ e, Device.send buffer bytes_transferred = Except.error e ↔
      (is_error bytes_transferred = true ∧ e = Failure.statusError bytes_transferred)) := by
  refine ⟨?_, ?_, ?_⟩
  · intro h0
    have hne : is_error bytes_transferred = false :=
      is_error_of_nonneg bytes_transferred h0
    simp [Device.send, hne]
  · intro other
    rfl
  · intro e
    unfold Device.send
    split_ifs with herr <;> simp [herr]
    tauto

/-- Witness for send_spec: a transport double reporting 1 byte transferred
out of a 3-byte buffer (a short write) still reports Success. -/
theorem send_spec_witness :
    Device.send [170, 187, 204] 1 = Except.ok () :=
  (send_spec [170, 187, 204] 1).1 (by decide)

/-- C8: for the string accessors, an index of 0 or less yields the empty
string with no native string fetch; a positive index fetches through a
staging buffer of exactly 256 bytes; and a negative transport result is a
StatusFailure.  The three accessors delegate to get_usb_string on the
record's resolved indices. -/
theorem get_usb_string_spec (string_id : Int) (fetch : StringFetchResult)
    (rec : DeviceDescriptorRecord) :
    stringBufferSize = 256 ∧
    (string_id ≤ 0 → Device.get_usb_string string_id fetch = (Except.ok "", [])) ∧
    (string_id > 0 →
      (Device.get_usb_string string_id fetch).2 =
        [Event.getStringDescriptorAscii string_id 256] ∧
      (fetch.chars < 0 →
        (Device.get_usb_string string_id fetch).1 =
          Except.error (Failure.statusError fetch.chars))) ∧
    Device.manufacturer rec fetch = Device.get_usb_string rec.iManufacturer fetch ∧
    Device.product rec fetch = Device.get_usb_string rec.iProduct fetch ∧
    Device.serial_number rec fetch = Device.get_usb_string rec.iSerialNumber fetch := by
  refine ⟨rfl, ?_, ?_, rfl, rfl, rfl⟩
  · intro hle
    have hnotpos : ¬ string_id > 0 := by omega
    simp [Device.get_usb_string, hnotpos]
  · intro hpos
    constructor
    · unfold Device.get_usb_string
      split_ifs <;> simp_all [stringBufferSize]
    · intro hneg
      simp [Device.get_usb_string, hpos, hneg]

/-- Witness for get_usb_string_spec: index 0 yields the empty string and
no native call, even when the transport double would report an error. -/
theorem get_usb_string_spec_witness :
    Device.get_usb_string 0 ⟨-7, []⟩ = (Except.ok "", []) :=
  (get_usb_string_spec 0 ⟨-7, []⟩ {}).2.1 (by decide)

/-- C6: parent brackets the transport parent query inside a transient
device-list acquisition scoped to the call; a reported parent handle is
wrapped as a new DeviceDescriptor with a reference-count increment, and a
missing parent signals UnavailableException, never a StatusException. -/
theorem parent_spec (listStatus : Int) (ph : Option DeviceHandle)
    (hok : is_error listStatus = false) :
    (∃ mid, (DeviceDescriptor.parent listStatus ph).2 =
        Event.getDeviceList :: (mid ++ [Event.freeDeviceList]) ∧
        Event.getParent ∈ mid) ∧
    (∀ p, ph = some p →
      (DeviceDescriptor.parent listStatus ph).1 = Except.ok ⟨some p, none⟩ ∧
      Event.refDevice (some p) ∈ (DeviceDescriptor.parent listStatus ph).2) ∧
    (ph = none →
      (DeviceDescriptor.parent listStatus ph).1 = Except.error Failure.unavailable ∧
      ∀ c, (DeviceDescriptor.parent listStatus ph).1 ≠
        Except.error (Failure.statusError c)) := by
  cases ph with
  | some p =>
      refine ⟨⟨[Event.getParent, Event.refDevice (some p)], ?_, ?_⟩, ?_, ?_⟩
      · simp [DeviceDescriptor.parent, hok]
      · simp
      · intro q hq
        obtain rfl : p = q := by injection hq
        constructor <;> simp [DeviceDescriptor.parent, hok]
      · intro hnone
        cases hnone
  | none =>
      refine ⟨⟨[Event.getParent], ?_, ?_⟩, ?_, ?_⟩
      · simp [DeviceDescriptor.parent, hok]
      · simp
      · intro q hq
        cases hq
      · intro hnone
        constructor
        · simp [DeviceDescriptor.parent, hok]
        · intro c
          simp [DeviceDescriptor.parent, hok]

/-- Witness for parent_spec: with a healthy device list and a transport
double reporting parent handle 5, parent returns the wrapped handle and
emits the reference-count increment. -/
theorem parent_spec_witness :
    (DeviceDescriptor.parent 0 (some 5)).1 = Except.ok ⟨some 5, none⟩ ∧
    Event.refDevice (some 5) ∈ (DeviceDescriptor.parent 0 (some 5)).2 :=
  (parent_spec 0 (some 5) (by decide)).2.1 5 rfl

/-- C7: a recognized transport-initialization failure in the Bus
constructor, and a recognized enumeration failure in device_descriptors,
both surface as a wrapping failure carrying the higher-level context
message with the inner translated StatusException nested as its cause. -/
theorem bus_failures_wrapped (initStatus listStatus : Int)
    (handles : List DeviceHandle) :
    (is_error initStatus = true →
      Bus.init initStatus = Except.error
        (Failure.wrapped "failed to create libusb session"
          (Failure.statusError initStatus))) ∧
    (is_error listStatus = true →
      (Bus.device_descriptors listStatus handles).1 = Except.error
        (Failure.wrapped "failed to get device list"
          (Failure.statusError listStatus))) := by
  constructor
  · intro herr
    simp [Bus.init, herr]
  · intro herr
    simp [Bus.device_descriptors, herr]

/-- Witness for bus_failures_wrapped: libusb_init failing with
LIBUSB_ERROR_OTHER (-99) and enumeration failing with LIBUSB_ERROR_IO
(-1) both surface as nested wrapped failures. -/
theorem bus_failures_wrapped_witness :
    Bus.init (-99) = Except.error
      (Failure.wrapped "failed to create libusb session"
        (Failure.statusError (-99))) ∧
    (Bus.device_descriptors (-1) []).1 = Except.error
      (Failure.wrapped "failed to get device list"
        (Failure.statusError (-1))) :=
  ⟨(bus_failures_wrapped (-99) (-1) []).1 (by decide),
   (bus_failures_wrapped (-99) (-1) []).2 (by decide)⟩

end Libusbcc

namespace Libusbcc

/-- C2: evaluation of the code at the failing input.  A fresh
DeviceDescriptor whose native descriptor fetch fails with LIBUSB_ERROR_IO
(-1) throws the StatusException, but the emplaced value-initialized record
stays in the cache; the second call is then a cache hit on that default
record — it performs no retry fetch and reports success with the stale
default record, contrary to the claim that no cache entry is stored on
failure and a subsequent call retries the fetch. -/
theorem descriptor_fetch_failure_poisons_cache :
    ((⟨some 7, none⟩ : DeviceDescriptor).descriptor ⟨-1, defaultRecord⟩).1 =
      Except.error (Failure.statusError (-1)) ∧
    ((⟨some 7, none⟩ : DeviceDescriptor).descriptor ⟨-1, defaultRecord⟩).2.1._descriptor =
      some defaultRecord ∧
    ((((⟨some 7, none⟩ : DeviceDescriptor).descriptor ⟨-1, defaultRecord⟩).2.1).descriptor
        ⟨0, { idVendor := 0x1234 }⟩).1 = Except.ok defaultRecord ∧
    ((((⟨some 7, none⟩ : DeviceDescriptor).descriptor ⟨-1, defaultRecord⟩).2.1).descriptor
        ⟨0, { idVendor := 0x1234 }⟩).2.2 = 0 := by
  refine ⟨?_, ?_, ?_, ?_⟩ <;> rfl

/-- C2 complement: with no intervening failure the cache-hit half of the
claim does hold — after one successful fetch the second descriptor call
returns the same record and performs zero native fetches. -/
theorem descriptor_cache_hit_after_success (d : DeviceHandle)
    (fetch : DescriptorFetch) (hok : is_error fetch.err = false) :
    ((⟨some d, none⟩ : DeviceDescriptor).descriptor fetch).2.2 = 1 ∧
    ((((⟨some d, none⟩ : DeviceDescriptor).descriptor fetch).2.1).descriptor fetch).1 =
      Except.ok fetch.record ∧
    ((((⟨some d, none⟩ : DeviceDescriptor).descriptor fetch).2.1).descriptor fetch).2.2 = 0 := by
  refine ⟨?_, ?_, ?_⟩ <;> simp [DeviceDescriptor.descriptor, hok]

/-- Witness for descriptor_cache_hit_after_success at handle 7 and a
successful fetch of a record with idVendor 0x1234. -/
theorem descriptor_cache_hit_after_success_witness :
    ((⟨some 7, none⟩ : DeviceDescriptor).descriptor ⟨0, { idVendor := 0x1234 }⟩).2.2 = 1 ∧
    ((((⟨some 7, none⟩ : DeviceDescriptor).descriptor
        ⟨0, { idVendor := 0x1234 }⟩).2.1).descriptor ⟨0, { idVendor := 0x1234 }⟩).1 =
      Except.ok { idVendor := 0x1234 } ∧
    ((((⟨some 7, none⟩ : DeviceDescriptor).descriptor
        ⟨0, { idVendor := 0x1234 }⟩).2.1).descriptor ⟨0, { idVendor := 0x1234 }⟩).2.2 = 0 :=
  descriptor_cache_hit_after_success 7 ⟨0, { idVendor := 0x1234 }⟩ (by decide)

/-- C3: evaluation of the code at the failing input.  Copy-assigning a
source (device handle 2, empty cache) onto a target that holds device
handle 1 with a cached record does increment the source handle's reference
count, but leaves the target's old cached metadata record in place: the
first metadata access after the copy is a cache hit on the stale record
(zero native fetches), contrary to the claim that after any copy the
target holds no cached metadata and re-fetches on first access. -/
theorem copy_assign_keeps_stale_cache :
    (DeviceDescriptor.copyAssign
        ⟨some 1, some { idVendor := 0x1234 }⟩ ⟨some 2, none⟩).2 =
      [Event.unrefDevice 1, Event.refDevice (some 2)] ∧
    (DeviceDescriptor.copyAssign
        ⟨some 1, some { idVendor := 0x1234 }⟩ ⟨some 2, none⟩).1._descriptor =
      some { idVendor := 0x1234 } ∧
    (((DeviceDescriptor.copyAssign
        ⟨some 1, some { idVendor := 0x1234 }⟩ ⟨some 2, none⟩).1).descriptor
        ⟨0, { idVendor := 0x5678 }⟩).1 = Except.ok { idVendor := 0x1234 } ∧
    (((DeviceDescriptor.copyAssign
        ⟨some 1, some { idVendor := 0x1234 }⟩ ⟨some 2, none⟩).1).descriptor
        ⟨0, { idVendor := 0x5678 }⟩).2.2 = 0 := by
  refine ⟨?_, ?_, ?_, ?_⟩ <;> rfl

/-- C3 complement: the copy constructor half of the claim does hold — the
copy increments the source handle's reference count and starts with an
empty metadata cache, so its first metadata access performs a fetch. -/
theorem copy_ctor_empty_cache (other : DeviceDescriptor)
    (fetch : DescriptorFetch) :
    (DeviceDescriptor.copyCtor other).2 = [Event.refDevice other._device] ∧
    (DeviceDescriptor.copyCtor other).1._descriptor = none ∧
    (((DeviceDescriptor.copyCtor other).1).descriptor fetch).2.2 = 1 := by
  refine ⟨rfl, rfl, ?_⟩
  unfold DeviceDescriptor.copyCtor DeviceDescriptor.descriptor
  split_ifs <;> rfl

end Libusbcc

namespace Libusbcc

/-- Witness for is_error_iff_recognized at the concrete status
LIBUSB_ERROR_OTHER (-99). -/
theorem is_error_iff_recognized_witness :
    is_error (-99) = true ↔ (-99 : Int) ∈ recognizedErrorCodes :=
  is_error_iff_recognized (-99)

/-- Witness for device_moves_close_once: a device holding session handle 3
moved twice (once by move construction, once by move assignment) emits no
close during the moves, its shells close nothing on destruction, and the
final holder closes handle 3 exactly once. -/
theorem device_moves_close_once_witness :
    (Device.moveChain ⟨none, some 3⟩ [true, false]).2.2 = [] ∧
    (⟨none, none⟩ : Device).cleanupEvents = [] ∧
    (Device.moveChain ⟨none, some 3⟩ [true, false]).2.1.cleanupEvents =
      [Event.closeHandle 3] :=
  ⟨(device_moves_close_once none 3 [true, false]).1,
   (device_moves_close_once none 3 [true, false]).2.1 ⟨none, none⟩ (by decide),
   (device_moves_close_once none 3 [true, false]).2.2⟩

end Libusbcc
